import Mathlib

/-!
Verification development for the Gemini interface control board firmware.

The definitions below are a shallow embedding of the C sources:
- `src/firmware/SevenSeg_Module/sevenSeg.c` (segment codec),
- `src/firmware/geminiControlClient.c` (display consistency guard,
  row increment/carry engine, panel controller branches),
- `src/firmware/MatrixKeypad_Module/mtrxKeypad.c` (keypad scan).

8-bit machine values are modelled as `Nat` with masking/mod where the C
performs unsigned-char truncation.  A display array (`SEVEN_SEG_DISP
sevSegDispArr[8]`) is modelled as a total function `Nat → SevenSegDisp`
so that the source's index arithmetic (including any out-of-range index
it may compute) can be represented directly; bounds of the real array
are stated as theorems, not baked into the type.  SPI transmissions are
logged explicitly instead of performing I/O.
-/

namespace Gemini

/-- Display unit state, mirroring the members of `SEVEN_SEG_DISP` used by
the sources (`activeLow`, `hexDigit`, `dp`, `nextBinSegCode`,
`currBinSegCode`); all are unsigned chars in C. -/
structure SevenSegDisp where
  activeLow : Nat
  hexDigit : Nat
  dp : Nat
  nextBinSegCode : Nat
  currBinSegCode : Nat
deriving Repr, DecidableEq

/-- Sentinel `OFF_CODE`: index 0x10 of `segCodeTable` (blank pattern). -/
def OFF_CODE : Nat := 0x10

/-- Sentinel `DASH_CODE`: index 0x11 of `segCodeTable` (dash pattern). -/
def DASH_CODE : Nat := 0x11

/-- Mask `BIT7`, the decimal-point bit of a segment pattern. -/
def BIT7 : Nat := 0x80

/-- Lookup table `segCodeTable` from `hexToSevSeg` in sevenSeg.c. -/
def segCodeTable : List Nat :=
  [0x3F, 0x06, 0x5B, 0x4F, 0x66, 0x6D, 0x7D, 0x07, 0x7F, 0x6F, 0x77,
   0x7C, 0x39, 0x5E, 0x79, 0x71, 0x00, 0x40]

/-- Function `hexToSevSeg` (sevenSeg.c lines 34-55): computes `nextBinSegCode`
from `hexDigit`/`dp`, inverting for an active-low display; returns the
updated display together with `convFail`. -/
def hexToSevSeg (display : SevenSegDisp) : SevenSegDisp × Nat :=
  let next0 : Nat := if display.dp ≠ 0 then BIT7 else 0x00
  let step : Nat × Nat :=
    if display.hexDigit < 0x12 then
      (next0 ||| segCodeTable.getD display.hexDigit 0, 0)
    else
      (next0, 1)
  let next2 : Nat := if display.activeLow ≠ 0 then step.1 ^^^ 0xFF else step.1
  ({ display with nextBinSegCode := next2 }, step.2)

/-- Function `SevSegToHex` (sevenSeg.c lines 78-153): decodes `currBinSegCode`
back into `hexDigit`/`dp`.  The source's `case 0x40` (DASH) lacks a
`break` and falls through into `default`, so it stores `DASH_CODE` but
still reports `convFail = 1`; the active-low inversion happens after the
`& 0x7F` mask, exactly as in the source. -/
def SevSegToHex (display : SevenSegDisp) : SevenSegDisp × Nat :=
  let s0 : Nat := display.currBinSegCode &&& 0x7F
  let sevSegCode : Nat := if display.activeLow ≠ 0 then s0 ^^^ 0xFF else s0
  let hit : Option Nat × Nat :=
    if sevSegCode = 0x3F then (some 0x0, 0)
    else if sevSegCode = 0x06 then (some 0x1, 0)
    else if sevSegCode = 0x5B then (some 0x2, 0)
    else if sevSegCode = 0x4F then (some 0x3, 0)
    else if sevSegCode = 0x66 then (some 0x4, 0)
    else if sevSegCode = 0x6D then (some 0x5, 0)
    else if sevSegCode = 0x7D then (some 0x6, 0)
    else if sevSegCode = 0x07 then (some 0x7, 0)
    else if sevSegCode = 0x7F then (some 0x8, 0)
    else if sevSegCode = 0x6F then (some 0x9, 0)
    else if sevSegCode = 0x77 then (some 0xA, 0)
    else if sevSegCode = 0x7C then (some 0xB, 0)
    else if sevSegCode = 0x39 then (some 0xC, 0)
    else if sevSegCode = 0x5E then (some 0xD, 0)
    else if sevSegCode = 0x79 then (some 0xE, 0)
    else if sevSegCode = 0x71 then (some 0xF, 0)
    else if sevSegCode = 0x00 then (some OFF_CODE, 0)
    else if sevSegCode = 0x40 then (some DASH_CODE, 1)
    else (none, 1)
  let display1 : SevenSegDisp :=
    match hit.1 with
    | some h => { display with hexDigit := h }
    | none => display
  let display2 : SevenSegDisp :=
    if hit.2 = 0 then
      { display1 with dp := if display.currBinSegCode &&& BIT7 ≠ 0 then 1 else 0 }
    else display1
  (display2, hit.2)

/-- Round trip used by the codec claims: encode digit `d` with
decimal-point flag `dpFlag` on a display of polarity `pol`, latch the
produced pattern as the committed pattern, then decode it back.
Returns (encode convFail, decode convFail, recovered digit, recovered dp). -/
def codecRoundTrip (d dpFlag pol : Nat) : Nat × Nat × Nat × Nat :=
  let d0 : SevenSegDisp := ⟨pol, d, dpFlag, 0, 0⟩
  let enc := hexToSevSeg d0
  let d1 : SevenSegDisp := { enc.1 with currBinSegCode := enc.1.nextBinSegCode }
  let dec := SevSegToHex d1
  (enc.2, dec.2, dec.1.hexDigit, dec.1.dp)

/-- A logged SPI transmission: a byte shifted out while one display's
chip select, all display chip selects, or the LED shift register's chip
select is asserted. -/
inductive Tx where
  | disp (i : Nat) (b : Nat)
  | allDisps (b : Nat)
  | led (b : Nat)
deriving Repr, DecidableEq

/-- Pointwise update of the display array at index `i`. -/
def updDisp (arr : Nat → SevenSegDisp) (i : Nat) (d : SevenSegDisp) :
    Nat → SevenSegDisp :=
  fun j => if j = i then d else arr j

/-- Assign `hexDigit` of the display at index `i` (a C `displayArr[i].hexDigit = v`). -/
def setHex (arr : Nat → SevenSegDisp) (i v : Nat) : Nat → SevenSegDisp :=
  updDisp arr i { arr i with hexDigit := v }

/-- Assign `dp` of the display at index `i` (a C `displayArr[i].dp = v`). -/
def setDp (arr : Nat → SevenSegDisp) (i v : Nat) : Nat → SevenSegDisp :=
  updDisp arr i { arr i with dp := v }

/-- Function `writeHexToSevSeg` (geminiControlClient.c lines 631-658): the display
consistency guard.  Returns the updated display, the transmitted byte
(`none` when no SPI write happened), and the error code (0 ok,
1 invalid digit, 2 consistency violation). -/
def writeHexToSevSeg (display : SevenSegDisp) (hexCode : Nat) :
    SevenSegDisp × Option Nat × Nat :=
  if display.currBinSegCode = display.nextBinSegCode then
    let d1 : SevenSegDisp := { display with hexDigit := hexCode }
    let conv := hexToSevSeg d1
    if conv.2 = 0 then
      ({ conv.1 with currBinSegCode := conv.1.nextBinSegCode },
       some conv.1.nextBinSegCode, 0)
    else
      (conv.1, none, 1)
  else
    (display, none, 2)

/-- One iteration of the loop in `refreshAllDisps`: re-encode display
`i`, force `currBinSegCode = nextBinSegCode`, transmit the committed
byte. -/
def refreshStep (acc : (Nat → SevenSegDisp) × List Tx) (i : Nat) :
    (Nat → SevenSegDisp) × List Tx :=
  let conv := hexToSevSeg (acc.1 i)
  let d1 : SevenSegDisp := { conv.1 with currBinSegCode := conv.1.nextBinSegCode }
  (updDisp acc.1 i d1, acc.2 ++ [Tx.disp i d1.currBinSegCode])

/-- Function `refreshAllDisps` (geminiControlClient.c lines 968-980): rewrites all
`NUM_DISPS = 8` displays from their stored `hexDigit`/`dp` state. -/
def refreshAllDisps (arr : Nat → SevenSegDisp) :
    (Nat → SevenSegDisp) × List Tx :=
  (List.range 8).foldl refreshStep (arr, [])

/-- The overflow-mode ("thousand state") detection of `incDispRow`
(geminiControlClient.c lines 814-817): no decimal point on the row's
third display and a non-OFF digit on its fourth. -/
def thousandState (arr : Nat → SevenSegDisp) (botRow : Nat) : Nat :=
  if botRow ≠ 0 then
    if (arr 6).dp = 0 ∧ (arr 7).hexDigit ≠ OFF_CODE then 1 else 0
  else
    if (arr 2).dp = 0 ∧ (arr 3).hexDigit ≠ OFF_CODE then 1 else 0

/-- The `switch (digitPos)` body of `incDispRow` (geminiControlClient.c
lines 822-924).  Takes the array, the pre-switch `dispRowIndex` and
`nextHexCode` and the `thousandState` flag; returns the mutated array,
the final `dispRowIndex` and the final `nextHexCode`. -/
def incSwitch (arr : Nat → SevenSegDisp) (digitPos botRow idx nhc ts : Nat) :
    (Nat → SevenSegDisp) × Nat × Nat :=
  match digitPos with
  | 0 =>
    if nhc > 0x9 ∧ nhc - 1 ≠ OFF_CODE then
      if botRow = 0 then
        let arr1 := if (arr (idx + 1)).hexDigit = 0x0
                    then setHex arr (idx + 1) OFF_CODE else arr
        (arr1, idx, OFF_CODE)
      else if ts = 0 then
        let arr1 := setHex arr (idx + 3) ((arr (idx + 2)).hexDigit)
        let arr2 := setHex arr1 (idx + 2) ((arr1 (idx + 1)).hexDigit)
        let arr3 := setDp arr2 (idx + 2) 0
        let arr4 := setHex arr3 (idx + 1) 0x0
        (arr4, idx, 0x1)
      else if ts ≠ 0 ∧ (arr (idx - 1)).hexDigit = 0x9 then
        let arr1 := if (arr (idx + 1)).hexDigit = 0x0
                    then setHex arr idx OFF_CODE
                    else setHex arr idx ((arr (idx + 1)).hexDigit)
        let arr2 := setHex arr1 (idx + 1) ((arr1 (idx + 2)).hexDigit)
        let arr3 := setHex arr2 (idx + 2) OFF_CODE
        (arr3, idx - 1, OFF_CODE)
      else
        let arr1 := setHex arr (idx - 1) (((arr (idx - 1)).hexDigit + 1) % 256)
        (arr1, idx, 0x0)
    else
      let nhc1 := if nhc - 1 = OFF_CODE then 0x1 else nhc
      let arr1 := if (arr (idx + 1)).hexDigit = OFF_CODE
                  then setHex arr (idx + 1) 0x0 else arr
      let arr2 := if (arr1 (idx + 2)).hexDigit = OFF_CODE
                  then setHex arr1 (idx + 2) 0x0 else arr1
      (arr2, idx, nhc1)
  | 1 =>
    if nhc - 1 = OFF_CODE then
      (arr, idx, 0x1)
    else if nhc > 0x9 then
      if (arr (idx - 1)).hexDigit = OFF_CODE then (arr, idx, OFF_CODE)
      else (arr, idx, 0x0)
    else (arr, idx, nhc)
  | 2 =>
    if nhc > 0x9 then (arr, idx, 0x0) else (arr, idx, nhc)
  | 3 =>
    let exit1 : (Nat → SevenSegDisp) × Nat :=
      if ts ≠ 0 then
        let i := idx - 1
        let a1 := if (arr (i - 2)).hexDigit = 0x0
                  then setHex arr (i - 3) OFF_CODE
                  else setHex arr (i - 3) ((arr (i - 2)).hexDigit)
        let a2 := if (a1 (i - 1)).hexDigit = 0x0 then
                    (if (a1 (i - 3)).hexDigit = OFF_CODE
                     then setHex a1 (i - 2) OFF_CODE
                     else setHex a1 (i - 2) 0x0)
                  else setHex a1 (i - 2) ((a1 (i - 1)).hexDigit)
        let a3 := setHex a2 (i - 1) ((a2 i).hexDigit)
        (a3, i)
      else (arr, idx)
    let arr1 := exit1.1
    let idx1 := exit1.2
    if nhc - 1 = OFF_CODE ∨ ts ≠ 0 then
      (setDp arr1 (idx1 - 1) 1, idx1, 0x1)
    else if nhc > 0x9 then
      (setDp arr1 (idx1 - 1) 0, idx1, OFF_CODE)
    else (arr1, idx1, nhc)
  | _ => (arr, idx, nhc)

/-- Function `incDispRow` (geminiControlClient.c lines 800-934): the row
increment/carry engine.  Returns the updated array, the transmission
log (the guarded write followed by the full refresh), and the error
code (3 for an invalid `digitPos`). -/
def incDispRow (arr : Nat → SevenSegDisp) (digitPos botRow : Nat) :
    (Nat → SevenSegDisp) × List Tx × Nat :=
  if digitPos ≤ 3 then
    let idx0 := if botRow ≠ 0 then digitPos + 4 else digitPos
    let ts := thousandState arr botRow
    let idx1 := idx0 + ts
    let nhc0 := ((arr idx1).hexDigit + 1) % 256
    let res := incSwitch arr digitPos botRow idx1 nhc0 ts
    let arr1 := res.1
    let idxF := res.2.1
    let nhcF := res.2.2
    let w := writeHexToSevSeg (arr1 idxF) nhcF
    let arr2 := updDisp arr1 idxF w.1
    let refreshed := refreshAllDisps arr2
    (refreshed.1,
     (match w.2.1 with
      | some b => [Tx.disp idxF b]
      | none => []) ++ refreshed.2,
     w.2.2)
  else (arr, [], 3)

/-! ### Access-index trace of `incDispRow`

`incDispRowAccesses` lists, in source order, every index `i` for which
`incDispRow` reads or writes `displayArr[i]`, following the same branch
structure as `incSwitch`/`incDispRow` above: the two `thousandState`
reads, the pre-switch read of `displayArr[dispRowIndex]`, the switch
body's accesses, the final guarded write, and the 8 refresh accesses. -/

/-- Indices accessed by the `switch (digitPos)` body of `incDispRow`. -/
def incSwitchAccesses (arr : Nat → SevenSegDisp) (digitPos botRow idx nhc ts : Nat) :
    List Nat :=
  match digitPos with
  | 0 =>
    if nhc > 0x9 ∧ nhc - 1 ≠ OFF_CODE then
      if botRow = 0 then [idx + 1]
      else if ts = 0 then [idx + 2, idx + 3, idx + 1, idx + 2, idx + 2, idx + 1]
      else if ts ≠ 0 ∧ (arr (idx - 1)).hexDigit = 0x9 then
        [idx - 1, idx + 1, idx, idx + 2, idx + 1, idx + 2]
      else [idx - 1]
    else [idx + 1, idx + 2]
  | 1 =>
    if nhc - 1 = OFF_CODE then []
    else if nhc > 0x9 then [idx - 1]
    else []
  | 2 => []
  | 3 =>
    (if ts ≠ 0 then
      [idx - 1 - 2, idx - 1 - 3, idx - 1 - 1, idx - 1 - 3, idx - 1 - 2,
       idx - 1, idx - 1 - 1]
     else []) ++
    (if nhc - 1 = OFF_CODE ∨ ts ≠ 0 then [(if ts ≠ 0 then idx - 1 else idx) - 1]
     else if nhc > 0x9 then [(if ts ≠ 0 then idx - 1 else idx) - 1]
     else [])
  | _ => []

/-- All display-array indices read or written by one `incDispRow` call. -/
def incDispRowAccesses (arr : Nat → SevenSegDisp) (digitPos botRow : Nat) :
    List Nat :=
  if digitPos ≤ 3 then
    let idx0 := if botRow ≠ 0 then digitPos + 4 else digitPos
    let ts := thousandState arr botRow
    let idx1 := idx0 + ts
    let nhc0 := ((arr idx1).hexDigit + 1) % 256
    (if botRow ≠ 0 then [6, 7] else [2, 3]) ++ [idx1] ++
      incSwitchAccesses arr digitPos botRow idx1 nhc0 ts ++
      [(incSwitch arr digitPos botRow idx1 nhc0 ts).2.1] ++ List.range 8
  else []

/-! ### Panel-controller branches modelled from geminiControlClient.c -/

/-- LED shift-register bit masks from geminiControlClient.c lines 112-120. -/
def LED_CONTROLLER : Nat := 0x01

def LED_PUMP : Nat := 0x02

def LED_CC : Nat := 0x04

def LED_BLANKBUTTON : Nat := 0x08

def LED_MONITOR : Nat := 0x10

def LED_SECPIGGYBACK : Nat := 0x20

def LED_BATTPWR : Nat := 0x40

def LED_PLUGPWR : Nat := 0x80

/-- Flag bits of `sysState` from geminiControlClient.c lines 136-142. -/
def FLAG_KEYPAD_PRESS : Nat := 0x01

def FLAG_PWR_OFF : Nat := 0x02

def FLAG_RATE_EDIT : Nat := 0x04

def FLAG_VTBI_EDIT : Nat := 0x08

def FLAG_PUMP_ACTIVE : Nat := 0x10

def FLAG_RATE_VALUE : Nat := 0x20

def FLAG_VTBI_VALUE : Nat := 0x40

/-- The `case CC_MONITOR` body (geminiControlClient.c lines 336-357),
run while the pump is not active: conditions read `currLedSRState`,
mutations apply to `nextLedSRState` (both unsigned chars). -/
def ccMonitorPress (currLed nextLed : Nat) : Nat :=
  let a := currLed &&& LED_CC
  let b := currLed &&& LED_BLANKBUTTON
  let m := currLed &&& LED_MONITOR
  if (a ^^^ b) = 0 ∧ (b ^^^ m) = 0 ∧ (a ^^^ m) = 0 then
    (nextLed &&& (0xFF ^^^ (LED_BLANKBUTTON ||| LED_MONITOR))) ||| LED_CC
  else if a ≠ 0 then (nextLed &&& (0xFF ^^^ LED_CC)) ||| LED_BLANKBUTTON
  else if b ≠ 0 then (nextLed &&& (0xFF ^^^ LED_BLANKBUTTON)) ||| LED_MONITOR
  else if m ≠ 0 then nextLed &&& (0xFF ^^^ LED_MONITOR)
  else nextLed

/-- The `case PC_MODE` body (geminiControlClient.c lines 488-501), run
while the pump is not active. -/
def pcModePress (currLed nextLed : Nat) : Nat :=
  if ((currLed &&& LED_CONTROLLER) ^^^ (currLed &&& LED_PUMP)) = 0 then
    (nextLed &&& (0xFF ^^^ LED_PUMP)) ||| LED_CONTROLLER
  else if (currLed &&& LED_CONTROLLER) ≠ 0 then
    (nextLed &&& (0xFF ^^^ LED_CONTROLLER)) ||| LED_PUMP
  else if (currLed &&& LED_PUMP) ≠ 0 then
    nextLed &&& (0xFF ^^^ LED_PUMP)
  else nextLed

/-- The `case VOLUME_INFUSED` body (geminiControlClient.c lines 515-528),
run while the pump is not active. -/
def volumeInfusedPress (currLed nextLed : Nat) : Nat :=
  if ((currLed &&& LED_BATTPWR) ^^^ (currLed &&& LED_PLUGPWR)) = 0 then
    (nextLed &&& (0xFF ^^^ LED_PLUGPWR)) ||| LED_BATTPWR
  else if (currLed &&& LED_BATTPWR) ≠ 0 then
    (nextLed &&& (0xFF ^^^ LED_BATTPWR)) ||| LED_PLUGPWR
  else if (currLed &&& LED_PLUGPWR) ≠ 0 then
    nextLed &&& (0xFF ^^^ LED_PLUGPWR)
  else nextLed

/-! ### Keypad scan (mtrxKeypad.c) and the main loop's press handling -/

/-- Keypad-facing register/state snapshot: the row interrupt edge select,
enable and flag registers, the column output register, the keypad
object's committed coordinate and the module's private
`pendingKeyCoord`. -/
structure KeypadState where
  rowIES : Nat
  rowIE : Nat
  rowIFG : Nat
  colOut : Nat
  currKeyCoord : Nat
  pendingKeyCoord : Nat
deriving Repr, DecidableEq

/-- The column loop of `scanForKeyPress` (mtrxKeypad.c lines 106-130).
`rowIn` maps the current column-output register value to the observed
row-input register value (the physical keypad).  Returns the final
column-output register value and the coordinate found, if any. -/
def scanColumns (rowIn : Nat → Nat) (ROW_PINS COL_PINS : Nat) :
    Nat → List Nat → Nat × Option Nat
  | colOut, [] => (colOut, none)
  | colOut, c :: rest =>
    if (1 <<< c) &&& COL_PINS = 0 then
      scanColumns rowIn ROW_PINS COL_PINS colOut rest
    else
      let colOut1 := (colOut &&& (0xFF ^^^ COL_PINS)) ||| (1 <<< c)
      if (rowIn colOut1) &&& ROW_PINS ≠ 0 then
        match (List.range 8).find?
            (fun r => (1 <<< r) &&& ROW_PINS &&& (rowIn colOut1) ≠ 0) with
        | some r => (colOut1, some ((c <<< 4) ||| r))
        | none => scanColumns rowIn ROW_PINS COL_PINS colOut1 rest
      else scanColumns rowIn ROW_PINS COL_PINS colOut1 rest

/-- Function `scanForKeyPress` (mtrxKeypad.c lines 94-139): returns the updated
state and `scanError` (0 on success, 1 when no pressed key was found).
On success the pending coordinate is stored and row edge select flips to
release-watching; on failure neither changes. -/
def scanForKeyPress (rowIn : Nat → Nat) (ROW_PINS COL_PINS : Nat)
    (st : KeypadState) : KeypadState × Nat :=
  let st0 : KeypadState := { st with rowIE := st.rowIE &&& (0xFF ^^^ ROW_PINS) }
  let scan := scanColumns rowIn ROW_PINS COL_PINS st0.colOut (List.range 8)
  let hit : KeypadState × Nat :=
    match scan.2 with
    | some coord =>
      ({ st0 with pendingKeyCoord := coord, rowIES := st0.rowIES ||| ROW_PINS,
                  colOut := scan.1 }, 0)
    | none => ({ st0 with colOut := scan.1 }, 1)
  ({ hit.1 with rowIFG := hit.1.rowIFG &&& (0xFF ^^^ ROW_PINS),
                colOut := hit.1.colOut ||| COL_PINS,
                rowIE := hit.1.rowIE ||| ROW_PINS }, hit.2)

/-- The main loop's key-press sub-branch (geminiControlClient.c lines
308-324): scan, and on an invalid press clear `FLAG_KEYPAD_PRESS` in
both snapshots; on a valid press mark the previous snapshot pressed.
Returns the keypad state and the two `sysState` snapshots. -/
def handleKeyPressEdge (rowIn : Nat → Nat) (ROW_PINS COL_PINS : Nat)
    (st : KeypadState) (currSys prevSys : Nat) : KeypadState × Nat × Nat :=
  let scan := scanForKeyPress rowIn ROW_PINS COL_PINS st
  if scan.2 ≠ 0 then
    (scan.1, currSys &&& (0xFF ^^^ FLAG_KEYPAD_PRESS),
     prevSys &&& (0xFF ^^^ FLAG_KEYPAD_PRESS))
  else
    (scan.1, currSys, prevSys ||| FLAG_KEYPAD_PRESS)

/-! ### Power-button event handling (main loop) -/

/-- The power-button branch body of the main loop (geminiControlClient.c
lines 549-586), entered when `FLAG_PWR_OFF` differs between the
snapshots.  Returns the display array, the committed LED register
variable `currLedSRState`, the two `sysState` snapshots, and the logged
transmissions.  GPIO/interrupt register writes and busy-wait delays of
the branch are not part of the modelled state. -/
def powerEventStep (arr : Nat → SevenSegDisp) (currLed currSys prevSys : Nat) :
    (Nat → SevenSegDisp) × Nat × Nat × Nat × List Tx :=
  if currSys &&& FLAG_PWR_OFF ≠ 0 then
    let currSys1 := currSys &&&
      (0xFF ^^^ (FLAG_RATE_EDIT ||| FLAG_VTBI_EDIT ||| FLAG_PUMP_ACTIVE))
    let prevSys1 := prevSys ^^^ ((prevSys ^^^ currSys1) &&& FLAG_PWR_OFF)
    (arr, currLed, currSys1, prevSys1, [Tx.allDisps 0x00, Tx.led LED_PLUGPWR])
  else
    let r := refreshAllDisps arr
    let prevSys1 := prevSys ^^^ ((prevSys ^^^ currSys) &&& FLAG_PWR_OFF)
    (r.1, currLed, currSys, prevSys1, r.2 ++ [Tx.led currLed])

/-! ### Concrete fixtures used by counterexamples and witnesses -/

/-- A display in the steady state the firmware maintains between writes:
active-high, showing `hex` with decimal point `dpv`, committed pattern
equal to the (re)computed pending pattern. -/
def steadyDisp (hex dpv : Nat) : SevenSegDisp :=
  let e := hexToSevSeg ⟨0, hex, dpv, 0, 0⟩
  { e.1 with currBinSegCode := e.1.nextBinSegCode }

/-- A display array whose bottom row shows the digits/decimal points
given by `a b c d` and whose top row shows "----". -/
def botRowArr (a b c d : Nat × Nat) : Nat → SevenSegDisp :=
  fun i =>
    if i = 4 then steadyDisp a.1 a.2
    else if i = 5 then steadyDisp b.1 b.2
    else if i = 6 then steadyDisp c.1 c.2
    else if i = 7 then steadyDisp d.1 d.2
    else steadyDisp DASH_CODE 0

/-- A display array whose top row shows the digits/decimal points given
by `a b c d` and whose bottom row shows "----". -/
def topRowArr (a b c d : Nat × Nat) : Nat → SevenSegDisp :=
  fun i =>
    if i = 0 then steadyDisp a.1 a.2
    else if i = 1 then steadyDisp b.1 b.2
    else if i = 2 then steadyDisp c.1 c.2
    else if i = 3 then steadyDisp d.1 d.2
    else steadyDisp DASH_CODE 0

/-- Bottom row showing "1 0 0 0" (overflow mode), top row "----". -/
def rowThousand : Nat → SevenSegDisp :=
  botRowArr (1, 0) (0, 0) (0, 0) (0, 0)

/-- Top row showing "9 0 2.3", bottom row "----". -/
def row9023Top : Nat → SevenSegDisp :=
  topRowArr (9, 0) (0, 0) (2, 1) (3, 0)

/-- Bottom row showing "9 0 2.3", top row "----". -/
def row9023Bot : Nat → SevenSegDisp :=
  botRowArr (9, 0) (0, 0) (2, 1) (3, 0)

/-- Top row showing "[][]7[]", bottom row "----". -/
def row7Top : Nat → SevenSegDisp :=
  topRowArr (OFF_CODE, 0) (OFF_CODE, 0) (7, 0) (OFF_CODE, 0)

/-- A display whose committed and pending patterns disagree (as after an
external blanking write that bypassed the guard). -/
def dispMismatch : SevenSegDisp :=
  ⟨0, 0x5, 0, 0x6D, 0x00⟩

/-- A keypad state fixture: press-watching edge select, interrupts
enabled, columns driven high, some previously committed coordinate. -/
def kpFix : KeypadState :=
  ⟨0x00, 0x0F, 0x00, 0xF0, 0x42, 0x33⟩

/-- A row-input environment in which no key is pressed: every read of
the row-input register returns 0. -/
def rowInNone : Nat → Nat := fun _col => 0

/-- Array index of a row's ONES slot (`ONES_PLACE` offset by 4 on the
bottom row), as computed by `incDispRow` when not in overflow mode. -/
def onesIdx (botRow : Nat) : Nat := if botRow ≠ 0 then 6 else 2

/-- The ONES-place digit transition of `incDispRow`: increment (as an
unsigned char) and wrap past 9 back to 0. -/
def onesNext (d : Nat) : Nat :=
  if (d + 1) % 256 > 0x9 then 0x0 else (d + 1) % 256

/-! ### Helper lemmas -/

/-- The sync applied to each display by `refreshAllDisps`. -/
def syncDisp (d : SevenSegDisp) : SevenSegDisp :=
  let c := hexToSevSeg d
  { c.1 with currBinSegCode := c.1.nextBinSegCode }

theorem hexToSevSeg_hexDigit (d : SevenSegDisp) :
    (hexToSevSeg d).1.hexDigit = d.hexDigit := rfl

theorem hexToSevSeg_dp (d : SevenSegDisp) : (hexToSevSeg d).1.dp = d.dp := rfl

theorem hexToSevSeg_activeLow (d : SevenSegDisp) :
    (hexToSevSeg d).1.activeLow = d.activeLow := rfl

theorem hexToSevSeg_currBinSegCode (d : SevenSegDisp) :
    (hexToSevSeg d).1.currBinSegCode = d.currBinSegCode := rfl

theorem hexToSevSeg_convFail (d : SevenSegDisp) (h : d.hexDigit < 0x12) :
    (hexToSevSeg d).2 = 0 := by
  simp only [hexToSevSeg, if_pos h]

theorem syncDisp_hexDigit (d : SevenSegDisp) : (syncDisp d).hexDigit = d.hexDigit := rfl

theorem syncDisp_dp (d : SevenSegDisp) : (syncDisp d).dp = d.dp := rfl

theorem syncDisp_activeLow (d : SevenSegDisp) :
    (syncDisp d).activeLow = d.activeLow := rfl

theorem syncDisp_consistent (d : SevenSegDisp) :
    (syncDisp d).currBinSegCode = (syncDisp d).nextBinSegCode := rfl

theorem range8_eq : List.range 8 = [0, 1, 2, 3, 4, 5, 6, 7] := rfl

theorem updDisp_same (arr : Nat → SevenSegDisp) (i : Nat) (d : SevenSegDisp) :
    updDisp arr i d i = d := by
  simp [updDisp]

theorem updDisp_other (arr : Nat → SevenSegDisp) (i j : Nat) (d : SevenSegDisp)
    (h : j ≠ i) : updDisp arr i d j = arr j := by
  simp [updDisp, h]

theorem refreshAllDisps_apply (arr : Nat → SevenSegDisp) (i : Nat) :
    (refreshAllDisps arr).1 i = if i < 8 then syncDisp (arr i) else arr i := by
  by_cases h : i < 8
  · rw [if_pos h]
    interval_cases i <;>
      simp [refreshAllDisps, refreshStep, updDisp, syncDisp, range8_eq]
  · rw [if_neg h]
    have h8 : 8 ≤ i := Nat.le_of_not_lt h
    simp only [refreshAllDisps, refreshStep, updDisp, range8_eq, List.foldl]
    have n0 : i ≠ 0 := by omega
    have n1 : i ≠ 1 := by omega
    have n2 : i ≠ 2 := by omega
    have n3 : i ≠ 3 := by omega
    have n4 : i ≠ 4 := by omega
    have n5 : i ≠ 5 := by omega
    have n6 : i ≠ 6 := by omega
    have n7 : i ≠ 7 := by omega
    simp [n0, n1, n2, n3, n4, n5, n6, n7]

theorem refreshAllDisps_txs (arr : Nat → SevenSegDisp) :
    (refreshAllDisps arr).2 =
      [Tx.disp 0 (syncDisp (arr 0)).currBinSegCode,
       Tx.disp 1 (syncDisp (arr 1)).currBinSegCode,
       Tx.disp 2 (syncDisp (arr 2)).currBinSegCode,
       Tx.disp 3 (syncDisp (arr 3)).currBinSegCode,
       Tx.disp 4 (syncDisp (arr 4)).currBinSegCode,
       Tx.disp 5 (syncDisp (arr 5)).currBinSegCode,
       Tx.disp 6 (syncDisp (arr 6)).currBinSegCode,
       Tx.disp 7 (syncDisp (arr 7)).currBinSegCode] := by
  simp [refreshAllDisps, refreshStep, updDisp, syncDisp, range8_eq]

theorem thousandState_cases (arr : Nat → SevenSegDisp) (botRow : Nat) :
    thousandState arr botRow = 0 ∨ thousandState arr botRow = 1 := by
  unfold thousandState
  split_ifs <;> simp

theorem writeHexToSevSeg_valid (d : SevenSegDisp) (h : Nat)
    (hc : d.currBinSegCode = d.nextBinSegCode) (hv : h < 0x12) :
    writeHexToSevSeg d h =
      ({ (hexToSevSeg { d with hexDigit := h }).1 with
          currBinSegCode := (hexToSevSeg { d with hexDigit := h }).1.nextBinSegCode },
       some (hexToSevSeg { d with hexDigit := h }).1.nextBinSegCode, 0) := by
  have hcv : (hexToSevSeg { d with hexDigit := h }).2 = 0 :=
    hexToSevSeg_convFail _ hv
  simp [writeHexToSevSeg, if_pos hc, hcv]

/-! ### Claim theorems -/

/-- C1: the claim states that encoding any digit in 0x0-0xF plus the OFF
and DASH sentinels, with any decimal-point flag and either polarity, and
then decoding the produced pattern succeeds and recovers the digit and
decimal point.  The code fails on the DASH sentinel even for an
active-high display (the `case 0x40` in `SevSegToHex` falls through into
`default` and reports failure), and fails for every active-low display
(the code masks with `0x7F` before inverting, so the compared value
always has bit 7 set and matches no case).  This theorem evaluates the
round trip at both failing inputs: digit DASH, no decimal point,
active-high; and digit 0x0, no decimal point, active-low. -/
theorem codec_roundtrip_fails_on_dash_and_active_low :
    codecRoundTrip DASH_CODE 0 0 = (0, 1, DASH_CODE, 0) ∧
    codecRoundTrip 0x0 0 1 = (0, 1, 0x0, 0) := by decide

/-- C3 counterexample: `writeHexToSevSeg` given the invalid digit 0x12 on
a consistent display showing 5 returns InvalidDigit (1) but leaves the
display with `nextBinSegCode` (clobbered to the bare decimal-point
pattern by `hexToSevSeg`) different from `currBinSegCode`, so the
InvalidDigit return does not leave pending == committed as claimed. -/
theorem writeDigit_invalid_breaks_consistency :
    (writeHexToSevSeg (steadyDisp 0x5 0) 0x12).2.2 = 1 ∧
    (writeHexToSevSeg (steadyDisp 0x5 0) 0x12).1.currBinSegCode ≠
      (writeHexToSevSeg (steadyDisp 0x5 0) 0x12).1.nextBinSegCode := by decide

/-- C3 amended: a successful `writeHexToSevSeg` (error 0) leaves
pending == committed, a ConsistencyViolation return (error 2) changes
nothing and only reports a mismatch that already existed, and
`refreshAllDisps` forces pending == committed on all 8 displays; only
the InvalidDigit path (error 1) can leave the two patterns apart. -/
theorem writeDigit_refreshAll_preserve_consistency :
    (∀ (d : SevenSegDisp) (h : Nat),
      ((writeHexToSevSeg d h).2.2 = 0 →
        (writeHexToSevSeg d h).1.currBinSegCode =
          (writeHexToSevSeg d h).1.nextBinSegCode) ∧
      ((writeHexToSevSeg d h).2.2 = 2 →
        (writeHexToSevSeg d h).1 = d ∧
          d.currBinSegCode ≠ d.nextBinSegCode)) ∧
    (∀ (arr : Nat → SevenSegDisp) (i : Nat), i < 8 →
      ((refreshAllDisps arr).1 i).currBinSegCode =
        ((refreshAllDisps arr).1 i).nextBinSegCode) := by
  constructor
  · intro d h
    constructor
    · intro h0
      simp only [writeHexToSevSeg] at h0 ⊢
      split_ifs at h0 ⊢ with h1 h2
      all_goals simp_all
    · intro h2
      simp only [writeHexToSevSeg] at h2 ⊢
      split_ifs at h2 ⊢ with h1 hcv
      all_goals simp_all
  · intro arr i hi
    rw [refreshAllDisps_apply, if_pos hi]
    exact syncDisp_consistent _

/-- C3 amended witness: the guard's behaviour at concrete inputs — a
valid write on a consistent display showing 0 stays consistent, a write
on a mismatched display changes nothing, and a refresh of the "1 0 0 0"
fixture leaves display 0 consistent. -/
theorem writeDigit_refreshAll_preserve_consistency_witness :
    ((writeHexToSevSeg (steadyDisp 0x0 0) 0x5).1.currBinSegCode =
      (writeHexToSevSeg (steadyDisp 0x0 0) 0x5).1.nextBinSegCode) ∧
    ((writeHexToSevSeg dispMismatch 0x5).1 = dispMismatch ∧
      dispMismatch.currBinSegCode ≠ dispMismatch.nextBinSegCode) ∧
    ((refreshAllDisps rowThousand).1 0).currBinSegCode =
      ((refreshAllDisps rowThousand).1 0).nextBinSegCode :=
  ⟨(writeDigit_refreshAll_preserve_consistency.1 (steadyDisp 0x0 0) 0x5).1
      (by decide),
   (writeDigit_refreshAll_preserve_consistency.1 dispMismatch 0x5).2
      (by decide),
   writeDigit_refreshAll_preserve_consistency.2 rowThousand 0 (by norm_num)⟩

/-- C4: on a display whose committed and pending patterns differ,
`writeHexToSevSeg` returns the ConsistencyViolation error code 2,
transmits nothing, and returns the display with every field unchanged. -/
theorem writeDigit_consistency_violation (d : SevenSegDisp) (h : Nat)
    (hne : d.currBinSegCode ≠ d.nextBinSegCode) :
    writeHexToSevSeg d h = (d, none, 2) := by
  simp only [writeHexToSevSeg, if_neg hne]

/-- C4 witness: the guard rejects a write of digit 3 to the concrete
mismatched display without modifying it or transmitting. -/
theorem writeDigit_consistency_violation_witness :
    dispMismatch.currBinSegCode ≠ dispMismatch.nextBinSegCode ∧
    writeHexToSevSeg dispMismatch 0x3 = (dispMismatch, none, 2) :=
  ⟨by decide, writeDigit_consistency_violation dispMismatch 0x3 (by decide)⟩

/-- C5 counterexample: from the overflow-capable row "1 0 0 0", a TENTHS
increment does not produce the row claimed by the spec scenario
("first slot blank, second slot 0, third slot blank with decimal point,
fourth slot 1"): in particular the second slot comes out OFF, not 0. -/
theorem tenths_from_1000_not_spec_row :
    ¬ (((incDispRow rowThousand 3 1).1 4).hexDigit = OFF_CODE ∧
       ((incDispRow rowThousand 3 1).1 5).hexDigit = 0x0 ∧
       ((incDispRow rowThousand 3 1).1 6).hexDigit = OFF_CODE ∧
       ((incDispRow rowThousand 3 1).1 6).dp = 1 ∧
       ((incDispRow rowThousand 3 1).1 7).hexDigit = 0x1) := by decide

/-- C5 amended: from the overflow-capable row "1 0 0 0", one TENTHS
increment exits overflow mode and yields "[blank][blank]0.1": the first
and second slots blank, the third slot 0 with the decimal point set, the
fourth slot 1 (matching the example in the `incDispRow` header comment),
with no error. -/
theorem tenths_from_1000_yields_blank_blank_0_point_1 :
    ((incDispRow rowThousand 3 1).1 4).hexDigit = OFF_CODE ∧
    ((incDispRow rowThousand 3 1).1 5).hexDigit = OFF_CODE ∧
    ((incDispRow rowThousand 3 1).1 6).hexDigit = 0x0 ∧
    ((incDispRow rowThousand 3 1).1 6).dp = 1 ∧
    ((incDispRow rowThousand 3 1).1 7).hexDigit = 0x1 ∧
    ((incDispRow rowThousand 3 1).1 7).dp = 0 ∧
    thousandState (incDispRow rowThousand 3 1).1 1 = 0 ∧
    (incDispRow rowThousand 3 1).2.2 = 0 := by decide

/-- C7: the claim states that a press of CC_MONITOR, PC_MODE or
VOLUME_INFUSED normalizes a group with none or more than one LED lit to
exactly the group's first member.  The code's "none or multiple" tests
XOR masks of different bit positions, which is zero only when none of
the group's LEDs is lit, so a multiple-lit state instead falls into the
cycling branches: with CC, BLANKBUTTON and MONITOR all lit, CC_MONITOR
leaves BLANKBUTTON and MONITOR both lit; with CONTROLLER and PUMP both
lit, PC_MODE leaves only PUMP lit; with BATTPWR and PLUGPWR both lit,
VOLUME_INFUSED leaves only PLUGPWR lit.  (The none-lit case does
normalize, as the last conjunct shows.) -/
theorem led_press_multiple_lit_not_normalized :
    ccMonitorPress (LED_CC ||| LED_BLANKBUTTON ||| LED_MONITOR)
        (LED_CC ||| LED_BLANKBUTTON ||| LED_MONITOR) =
      (LED_BLANKBUTTON ||| LED_MONITOR) ∧
    pcModePress (LED_CONTROLLER ||| LED_PUMP) (LED_CONTROLLER ||| LED_PUMP) =
      LED_PUMP ∧
    volumeInfusedPress (LED_BATTPWR ||| LED_PLUGPWR)
        (LED_BATTPWR ||| LED_PLUGPWR) = LED_PLUGPWR ∧
    ccMonitorPress 0 0 = LED_CC := by decide

/-- C8: when `scanForKeyPress` reports a miss (nonzero return), the main
loop's press branch clears `FLAG_KEYPAD_PRESS` in both the current and
previous `sysState` snapshots, commits no coordinate (`currKeyCoord` and
the pending coordinate are unchanged), leaves the row edge-select
register unchanged (still watching for a press), and changes no other
panel-state flag in either snapshot. -/
theorem scan_miss_discards_press
    (rowIn : Nat → Nat) (RP CP : Nat) (st : KeypadState) (cs ps : Nat)
    (hmiss : (scanForKeyPress rowIn RP CP st).2 ≠ 0) :
    (handleKeyPressEdge rowIn RP CP st cs ps).2.1 &&& FLAG_KEYPAD_PRESS = 0 ∧
    (handleKeyPressEdge rowIn RP CP st cs ps).2.2 &&& FLAG_KEYPAD_PRESS = 0 ∧
    (handleKeyPressEdge rowIn RP CP st cs ps).1.currKeyCoord = st.currKeyCoord ∧
    (handleKeyPressEdge rowIn RP CP st cs ps).1.pendingKeyCoord =
      st.pendingKeyCoord ∧
    (handleKeyPressEdge rowIn RP CP st cs ps).1.rowIES = st.rowIES ∧
    (∀ f, f ∈ [FLAG_PWR_OFF, FLAG_RATE_EDIT, FLAG_VTBI_EDIT, FLAG_PUMP_ACTIVE,
        FLAG_RATE_VALUE, FLAG_VTBI_VALUE] →
      (handleKeyPressEdge rowIn RP CP st cs ps).2.1 &&& f = cs &&& f ∧
      (handleKeyPressEdge rowIn RP CP st cs ps).2.2 &&& f = ps &&& f) := by
  have hstep : handleKeyPressEdge rowIn RP CP st cs ps =
      ((scanForKeyPress rowIn RP CP st).1,
       cs &&& (0xFF ^^^ FLAG_KEYPAD_PRESS),
       ps &&& (0xFF ^^^ FLAG_KEYPAD_PRESS)) := by
    simp only [handleKeyPressEdge, if_pos hmiss]
  have hscan : (scanForKeyPress rowIn RP CP st).1.currKeyCoord =
        st.currKeyCoord ∧
      (scanForKeyPress rowIn RP CP st).1.pendingKeyCoord =
        st.pendingKeyCoord ∧
      (scanForKeyPress rowIn RP CP st).1.rowIES = st.rowIES := by
    simp only [scanForKeyPress] at hmiss ⊢
    rcases hs : (scanColumns rowIn RP CP st.colOut (List.range 8)).2 with _ | c
    · simp [hs]
    · rw [hs] at hmiss
      simp at hmiss
  have hz : (0xFF ^^^ FLAG_KEYPAD_PRESS) &&& FLAG_KEYPAD_PRESS = 0 := by decide
  rw [hstep]
  refine ⟨?_, ?_, hscan.1, hscan.2.1, hscan.2.2, ?_⟩
  · rw [Nat.and_assoc, hz, Nat.and_zero]
  · rw [Nat.and_assoc, hz, Nat.and_zero]
  · intro f hf
    fin_cases hf <;> constructor <;>
      · rw [Nat.and_assoc]
        congr 1

/-- C8 witness: with no key held down (all row-input reads return 0) the
scan misses, and the press branch applied to the concrete fixture clears
the event flag in both snapshots, commits nothing, keeps the edge select
and preserves the power-off flag of both snapshots. -/
theorem scan_miss_discards_press_witness :
    (scanForKeyPress rowInNone 0x0F 0xF0 kpFix).2 ≠ 0 ∧
    ((handleKeyPressEdge rowInNone 0x0F 0xF0 kpFix 0x1 0x0).2.1 &&&
        FLAG_KEYPAD_PRESS = 0 ∧
      (handleKeyPressEdge rowInNone 0x0F 0xF0 kpFix 0x1 0x0).1.currKeyCoord =
        kpFix.currKeyCoord ∧
      (handleKeyPressEdge rowInNone 0x0F 0xF0 kpFix 0x1 0x0).1.rowIES =
        kpFix.rowIES ∧
      (handleKeyPressEdge rowInNone 0x0F 0xF0 kpFix 0x1 0x0).2.1 &&&
          FLAG_PWR_OFF = 0x1 &&& FLAG_PWR_OFF) := by
  have h := scan_miss_discards_press rowInNone 0x0F 0xF0 kpFix 0x1 0x0
    (by decide)
  exact ⟨by decide, h.1, h.2.2.1, h.2.2.2.2.1,
    (h.2.2.2.2.2 FLAG_PWR_OFF (by simp)).1⟩

/-- C10: handling a power-button event that enters the OFF state
transmits 0x00 with every display chip select asserted and only the
plug-power bit to the LED register, while leaving the display array (all
fields of all units) and the committed LED snapshot `currLedSRState`
unchanged; handling the following power-button event (which enters ON)
retransmits exactly the preserved committed patterns of the 8 displays
and the preserved LED snapshot.  The steadiness hypothesis says each
display's committed pattern matches its stored digit/decimal state, as
the firmware maintains between writes. -/
theorem power_off_preserves_and_on_restores
    (arr : Nat → SevenSegDisp) (currLed cs ps : Nat)
    (hoff : cs &&& FLAG_PWR_OFF ≠ 0)
    (hsteady : ∀ i, i < 8 →
      (hexToSevSeg (arr i)).1.nextBinSegCode = (arr i).currBinSegCode) :
    (powerEventStep arr currLed cs ps).1 = arr ∧
    (powerEventStep arr currLed cs ps).2.1 = currLed ∧
    (powerEventStep arr currLed cs ps).2.2.2.2 =
      [Tx.allDisps 0x00, Tx.led LED_PLUGPWR] ∧
    (powerEventStep (powerEventStep arr currLed cs ps).1
        (powerEventStep arr currLed cs ps).2.1
        ((powerEventStep arr currLed cs ps).2.2.1 ^^^ FLAG_PWR_OFF)
        (powerEventStep arr currLed cs ps).2.2.2.1).2.2.2.2 =
      [Tx.disp 0 ((arr 0).currBinSegCode), Tx.disp 1 ((arr 1).currBinSegCode),
       Tx.disp 2 ((arr 2).currBinSegCode), Tx.disp 3 ((arr 3).currBinSegCode),
       Tx.disp 4 ((arr 4).currBinSegCode), Tx.disp 5 ((arr 5).currBinSegCode),
       Tx.disp 6 ((arr 6).currBinSegCode), Tx.disp 7 ((arr 7).currBinSegCode),
       Tx.led currLed] := by
  have hOffStep : powerEventStep arr currLed cs ps =
      (arr, currLed,
       cs &&& (0xFF ^^^ (FLAG_RATE_EDIT ||| FLAG_VTBI_EDIT ||| FLAG_PUMP_ACTIVE)),
       ps ^^^ ((ps ^^^ (cs &&&
         (0xFF ^^^ (FLAG_RATE_EDIT ||| FLAG_VTBI_EDIT ||| FLAG_PUMP_ACTIVE)))) &&&
         FLAG_PWR_OFF),
       [Tx.allDisps 0x00, Tx.led LED_PLUGPWR]) := by
    simp only [powerEventStep, if_pos hoff]
  have hbit : cs &&& FLAG_PWR_OFF = 2 := by
    have h2 := Nat.and_two_pow cs 1
    cases hb : cs.testBit 1 with
    | false =>
      rw [hb] at h2
      norm_num at h2
      exact absurd (by simpa [FLAG_PWR_OFF] using h2) hoff
    | true =>
      rw [hb] at h2
      norm_num at h2
      simpa [FLAG_PWR_OFF] using h2
  have honBit : ((cs &&&
      (0xFF ^^^ (FLAG_RATE_EDIT ||| FLAG_VTBI_EDIT ||| FLAG_PUMP_ACTIVE))) ^^^
      FLAG_PWR_OFF) &&& FLAG_PWR_OFF = 0 := by
    rw [Nat.and_xor_distrib_right, Nat.and_assoc]
    have : (0xFF ^^^ (FLAG_RATE_EDIT ||| FLAG_VTBI_EDIT ||| FLAG_PUMP_ACTIVE)) &&&
        FLAG_PWR_OFF = FLAG_PWR_OFF := by decide
    rw [this, hbit]
    decide
  refine ⟨by rw [hOffStep], by rw [hOffStep], by rw [hOffStep], ?_⟩
  rw [hOffStep]
  have hONStep : ∀ psIn : Nat, (powerEventStep arr currLed
      ((cs &&& (0xFF ^^^ (FLAG_RATE_EDIT ||| FLAG_VTBI_EDIT |||
        FLAG_PUMP_ACTIVE))) ^^^ FLAG_PWR_OFF) psIn).2.2.2.2 =
      (refreshAllDisps arr).2 ++ [Tx.led currLed] := by
    intro psIn
    simp only [powerEventStep, honBit]
    simp
  rw [hONStep, refreshAllDisps_txs]
  have hb : ∀ i, i < 8 → (syncDisp (arr i)).currBinSegCode =
      (arr i).currBinSegCode := by
    intro i hi
    simpa [syncDisp] using hsteady i hi
  simp [hb 0 (by norm_num), hb 1 (by norm_num), hb 2 (by norm_num),
    hb 3 (by norm_num), hb 4 (by norm_num), hb 5 (by norm_num),
    hb 6 (by norm_num), hb 7 (by norm_num)]

/-- C10 witness: applied to the steady "9 0 2.3" top-row fixture with
LED snapshot 0xA5 and a power event entering OFF: the OFF step blanks
the hardware only, and the ON step retransmits the preserved patterns. -/
theorem power_off_preserves_and_on_restores_witness :
    (powerEventStep row9023Top 0xA5 0x2 0x0).1 = row9023Top ∧
    (powerEventStep row9023Top 0xA5 0x2 0x0).2.1 = 0xA5 ∧
    (powerEventStep row9023Top 0xA5 0x2 0x0).2.2.2.2 =
      [Tx.allDisps 0x00, Tx.led LED_PLUGPWR] ∧
    (powerEventStep (powerEventStep row9023Top 0xA5 0x2 0x0).1
        (powerEventStep row9023Top 0xA5 0x2 0x0).2.1
        ((powerEventStep row9023Top 0xA5 0x2 0x0).2.2.1 ^^^ FLAG_PWR_OFF)
        (powerEventStep row9023Top 0xA5 0x2 0x0).2.2.2.1).2.2.2.2 =
      [Tx.disp 0 ((row9023Top 0).currBinSegCode),
       Tx.disp 1 ((row9023Top 1).currBinSegCode),
       Tx.disp 2 ((row9023Top 2).currBinSegCode),
       Tx.disp 3 ((row9023Top 3).currBinSegCode),
       Tx.disp 4 ((row9023Top 4).currBinSegCode),
       Tx.disp 5 ((row9023Top 5).currBinSegCode),
       Tx.disp 6 ((row9023Top 6).currBinSegCode),
       Tx.disp 7 ((row9023Top 7).currBinSegCode),
       Tx.led 0xA5] :=
  power_off_preserves_and_on_restores row9023Top 0xA5 0x2 0x0 (by decide)
    (by decide)

/-- C6: a HUNDREDS increment from digit 9 when the row is not in
overflow mode.  On the capped top (RATE) row the hundreds slot resets to
OFF, the tens slot is cleared to OFF exactly when it was 0, and the ones
and tenths slots keep their digit and decimal point.  On the
overflow-capable bottom row the old tens and ones values shift one slot
right, the slot receiving the old tens value has its decimal point
cleared, the vacated hundreds slot becomes 0 and the leftmost slot
becomes 1, entering overflow mode (the hypothesis that the ones slot is
not OFF holds for any row actually displaying a number such as
"9 0 2.3"). -/
theorem hundreds_rollover_from_nine (arr : Nat → SevenSegDisp) :
    ((arr 0).hexDigit = 0x9 → thousandState arr 0 = 0 →
      (arr 0).currBinSegCode = (arr 0).nextBinSegCode →
      ((incDispRow arr 0 0).1 0).hexDigit = OFF_CODE ∧
      ((incDispRow arr 0 0).1 1).hexDigit =
        (if (arr 1).hexDigit = 0x0 then OFF_CODE else (arr 1).hexDigit) ∧
      ((incDispRow arr 0 0).1 2).hexDigit = (arr 2).hexDigit ∧
      ((incDispRow arr 0 0).1 2).dp = (arr 2).dp ∧
      ((incDispRow arr 0 0).1 3).hexDigit = (arr 3).hexDigit ∧
      ((incDispRow arr 0 0).1 3).dp = (arr 3).dp) ∧
    ((arr 4).hexDigit = 0x9 → thousandState arr 1 = 0 →
      (arr 4).currBinSegCode = (arr 4).nextBinSegCode →
      (arr 6).hexDigit ≠ OFF_CODE →
      ((incDispRow arr 0 1).1 4).hexDigit = 0x1 ∧
      ((incDispRow arr 0 1).1 5).hexDigit = 0x0 ∧
      ((incDispRow arr 0 1).1 6).hexDigit = (arr 5).hexDigit ∧
      ((incDispRow arr 0 1).1 6).dp = 0 ∧
      ((incDispRow arr 0 1).1 7).hexDigit = (arr 6).hexDigit ∧
      thousandState (incDispRow arr 0 1).1 1 = 1) := by
  constructor
  · intro h9 hts hcons
    have hsw : incSwitch arr 0 0 0 10 0 =
        ((if (arr 1).hexDigit = 0x0 then setHex arr 1 OFF_CODE else arr),
         0, OFF_CODE) := by
      simp [incSwitch, OFF_CODE]
    have hA0 : (if (arr 1).hexDigit = 0x0 then setHex arr 1 OFF_CODE else arr) 0 =
        arr 0 := by
      split_ifs <;> simp [setHex, updDisp]
    have hrow : (incDispRow arr 0 0).1 =
        (refreshAllDisps (updDisp
          (if (arr 1).hexDigit = 0x0 then setHex arr 1 OFF_CODE else arr) 0
          (writeHexToSevSeg
            ((if (arr 1).hexDigit = 0x0 then setHex arr 1 OFF_CODE else arr) 0)
            OFF_CODE).1)).1 := by
      simp only [incDispRow, hts]
      norm_num [h9]
      rw [hsw]
    have hw := writeHexToSevSeg_valid (arr 0) OFF_CODE hcons
      (by norm_num [OFF_CODE])
    refine ⟨?_, ?_, ?_, ?_, ?_, ?_⟩ <;>
      rw [hrow, refreshAllDisps_apply]
    · rw [if_pos (by norm_num : (0:Nat) < 8), updDisp_same, hA0, hw]
      simp [syncDisp, hexToSevSeg]
    · rw [if_pos (by norm_num : (1:Nat) < 8),
        updDisp_other _ _ _ _ (by norm_num : (1:Nat) ≠ 0)]
      split_ifs with h1 <;> simp [setHex, updDisp, syncDisp, hexToSevSeg, h1]
    · rw [if_pos (by norm_num : (2:Nat) < 8),
        updDisp_other _ _ _ _ (by norm_num : (2:Nat) ≠ 0)]
      split_ifs <;> simp [setHex, updDisp, syncDisp, hexToSevSeg]
    · rw [if_pos (by norm_num : (2:Nat) < 8),
        updDisp_other _ _ _ _ (by norm_num : (2:Nat) ≠ 0)]
      split_ifs <;> simp [setHex, updDisp, syncDisp, hexToSevSeg]
    · rw [if_pos (by norm_num : (3:Nat) < 8),
        updDisp_other _ _ _ _ (by norm_num : (3:Nat) ≠ 0)]
      split_ifs <;> simp [setHex, updDisp, syncDisp, hexToSevSeg]
    · rw [if_pos (by norm_num : (3:Nat) < 8),
        updDisp_other _ _ _ _ (by norm_num : (3:Nat) ≠ 0)]
      split_ifs <;> simp [setHex, updDisp, syncDisp, hexToSevSeg]
  · intro h9 hts hcons h6
    have hsw : incSwitch arr 0 1 4 10 0 =
        (setHex (setDp (setHex (setHex arr 7 ((arr 6).hexDigit)) 6
            ((setHex arr 7 ((arr 6).hexDigit) 5).hexDigit)) 6 0) 5 0x0,
         4, 0x1) := by
      simp [incSwitch, OFF_CODE]
    have hA4 : (setHex (setDp (setHex (setHex arr 7 ((arr 6).hexDigit)) 6
        ((setHex arr 7 ((arr 6).hexDigit) 5).hexDigit)) 6 0) 5 0x0) 4 = arr 4 := by
      simp [setHex, setDp, updDisp]
    have hrow : (incDispRow arr 0 1).1 =
        (refreshAllDisps (updDisp
          (setHex (setDp (setHex (setHex arr 7 ((arr 6).hexDigit)) 6
            ((setHex arr 7 ((arr 6).hexDigit) 5).hexDigit)) 6 0) 5 0x0) 4
          (writeHexToSevSeg
            ((setHex (setDp (setHex (setHex arr 7 ((arr 6).hexDigit)) 6
              ((setHex arr 7 ((arr 6).hexDigit) 5).hexDigit)) 6 0) 5 0x0) 4)
            0x1).1)).1 := by
      simp only [incDispRow, hts]
      norm_num [h9]
      rw [hsw]
    have hw := writeHexToSevSeg_valid (arr 4) 0x1 hcons (by norm_num)
    have hres4 : ((incDispRow arr 0 1).1 4).hexDigit = 0x1 := by
      rw [hrow, refreshAllDisps_apply, if_pos (by norm_num : (4:Nat) < 8),
        updDisp_same, hA4, hw]
      simp [syncDisp, hexToSevSeg]
    have hres5 : ((incDispRow arr 0 1).1 5).hexDigit = 0x0 := by
      rw [hrow, refreshAllDisps_apply, if_pos (by norm_num : (5:Nat) < 8),
        updDisp_other _ _ _ _ (by norm_num : (5:Nat) ≠ 4)]
      simp [setHex, setDp, updDisp, syncDisp, hexToSevSeg]
    have hres6h : ((incDispRow arr 0 1).1 6).hexDigit = (arr 5).hexDigit := by
      rw [hrow, refreshAllDisps_apply, if_pos (by norm_num : (6:Nat) < 8),
        updDisp_other _ _ _ _ (by norm_num : (6:Nat) ≠ 4)]
      simp [setHex, setDp, updDisp, syncDisp, hexToSevSeg]
    have hres6d : ((incDispRow arr 0 1).1 6).dp = 0 := by
      rw [hrow, refreshAllDisps_apply, if_pos (by norm_num : (6:Nat) < 8),
        updDisp_other _ _ _ _ (by norm_num : (6:Nat) ≠ 4)]
      simp [setHex, setDp, updDisp, syncDisp, hexToSevSeg]
    have hres7 : ((incDispRow arr 0 1).1 7).hexDigit = (arr 6).hexDigit := by
      rw [hrow, refreshAllDisps_apply, if_pos (by norm_num : (7:Nat) < 8),
        updDisp_other _ _ _ _ (by norm_num : (7:Nat) ≠ 4)]
      simp [setHex, setDp, updDisp, syncDisp, hexToSevSeg]
    refine ⟨hres4, hres5, hres6h, hres6d, hres7, ?_⟩
    simp [thousandState, hres6d, hres7, h6]

/-- C6 witness: the two spec scenarios — top row "9 0 2.3" wraps to
"[][]2.3", bottom row "9 0 2.3" becomes "1 0 0 2" and enters overflow
mode. -/
theorem hundreds_rollover_from_nine_witness :
    ((incDispRow row9023Top 0 0).1 0).hexDigit = OFF_CODE ∧
    ((incDispRow row9023Top 0 0).1 1).hexDigit =
      (if (row9023Top 1).hexDigit = 0x0 then OFF_CODE
       else (row9023Top 1).hexDigit) ∧
    ((incDispRow row9023Bot 0 1).1 4).hexDigit = 0x1 ∧
    ((incDispRow row9023Bot 0 1).1 5).hexDigit = 0x0 ∧
    thousandState (incDispRow row9023Bot 0 1).1 1 = 1 := by
  have ht := (hundreds_rollover_from_nine row9023Top).1 (by decide) (by decide)
    (by decide)
  have hb := (hundreds_rollover_from_nine row9023Bot).2 (by decide) (by decide)
    (by decide) (by decide)
  exact ⟨ht.1, ht.2.1, hb.1, hb.2.1, hb.2.2.2.2.2⟩

/-- One ONES-place increment on a consistent row not in overflow mode:
only the ONES slot's digit changes (to `onesNext` of it), every decimal
point is unchanged, and the result is again consistent, out of overflow
mode, and holds a digit at the ONES slot. -/
theorem ones_step (arr : Nat → SevenSegDisp) (br : Nat)
    (hcons : ∀ i, i < 8 → (arr i).currBinSegCode = (arr i).nextBinSegCode)
    (hts : thousandState arr br = 0)
    (hd : (arr (onesIdx br)).hexDigit ≤ 0x9) :
    (∀ j, ((incDispRow arr 2 br).1 j).hexDigit =
        (if j = onesIdx br then onesNext ((arr (onesIdx br)).hexDigit)
         else (arr j).hexDigit)) ∧
    (∀ j, ((incDispRow arr 2 br).1 j).dp = (arr j).dp) ∧
    (∀ i, i < 8 → ((incDispRow arr 2 br).1 i).currBinSegCode =
        ((incDispRow arr 2 br).1 i).nextBinSegCode) ∧
    thousandState (incDispRow arr 2 br).1 br = 0 ∧
    ((incDispRow arr 2 br).1 (onesIdx br)).hexDigit ≤ 0x9 := by
  have hnv : onesNext ((arr (onesIdx br)).hexDigit) ≤ 0x9 := by
    unfold onesNext
    split_ifs <;> omega
  have hw := writeHexToSevSeg_valid (arr (onesIdx br))
    (onesNext ((arr (onesIdx br)).hexDigit))
    (hcons (onesIdx br) (by unfold onesIdx; split_ifs <;> norm_num))
    (by omega)
  have hrow : (incDispRow arr 2 br).1 =
      (refreshAllDisps (updDisp arr (onesIdx br)
        (writeHexToSevSeg (arr (onesIdx br))
          (onesNext ((arr (onesIdx br)).hexDigit))).1)).1 := by
    rcases eq_or_ne br 0 with hbr | hbr
    · subst hbr
      have hsw : incSwitch arr 2 0 2 (((arr 2).hexDigit + 1) % 256)
          0 = (arr, 2, onesNext ((arr 2).hexDigit)) := by
        simp only [incSwitch, onesNext]
        split_ifs <;> rfl
      simp only [incDispRow, hts]
      norm_num [onesIdx]
      rw [hsw]
    · have hsw : incSwitch arr 2 br 6 (((arr 6).hexDigit + 1) % 256)
          0 = (arr, 6, onesNext ((arr 6).hexDigit)) := by
        simp only [incSwitch, onesNext]
        split_ifs <;> rfl
      simp only [incDispRow, hts]
      simp only [hbr, if_true, ne_eq, not_false_iff]
      norm_num [onesIdx, hbr]
      rw [hsw]
  have hidx8 : onesIdx br < 8 := by unfold onesIdx; split_ifs <;> norm_num
  have hhex : ∀ j, ((incDispRow arr 2 br).1 j).hexDigit =
      (if j = onesIdx br then onesNext ((arr (onesIdx br)).hexDigit)
       else (arr j).hexDigit) := by
    intro j
    rw [hrow, refreshAllDisps_apply]
    by_cases hj : j < 8
    · rw [if_pos hj]
      by_cases hji : j = onesIdx br
      · subst hji
        rw [updDisp_same, hw, if_pos rfl]
        simp [syncDisp, hexToSevSeg]
      · rw [updDisp_other _ _ _ _ hji, if_neg hji]
        simp [syncDisp, hexToSevSeg]
    · have hji : j ≠ onesIdx br := by omega
      rw [if_neg hj, updDisp_other _ _ _ _ hji, if_neg hji]
  have hdp : ∀ j, ((incDispRow arr 2 br).1 j).dp = (arr j).dp := by
    intro j
    rw [hrow, refreshAllDisps_apply]
    by_cases hj : j < 8
    · rw [if_pos hj]
      by_cases hji : j = onesIdx br
      · subst hji
        rw [updDisp_same, hw]
        simp [syncDisp, hexToSevSeg]
      · rw [updDisp_other _ _ _ _ hji]
        simp [syncDisp, hexToSevSeg]
    · have hji : j ≠ onesIdx br := by omega
      rw [if_neg hj, updDisp_other _ _ _ _ hji]
  have hcons' : ∀ i, i < 8 → ((incDispRow arr 2 br).1 i).currBinSegCode =
      ((incDispRow arr 2 br).1 i).nextBinSegCode := by
    intro i hi
    rw [hrow, refreshAllDisps_apply, if_pos hi]
    exact syncDisp_consistent _
  have hts' : thousandState (incDispRow arr 2 br).1 br = 0 := by
    rcases eq_or_ne br 0 with hbr | hbr
    · subst hbr
      have h2 := hdp 2
      have h3 := hhex 3
      rw [if_neg (by norm_num [onesIdx])] at h3
      simp only [thousandState] at hts ⊢
      norm_num at hts ⊢
      rw [h2, h3]
      exact hts
    · have h6 := hdp 6
      have h7 := hhex 7
      rw [if_neg (by simp [onesIdx, hbr])] at h7
      simp only [thousandState] at hts ⊢
      simp only [hbr, if_true, ne_eq, not_false_iff] at hts ⊢
      rw [h6, h7]
      exact hts
  refine ⟨hhex, hdp, hcons', hts', ?_⟩
  rw [hhex (onesIdx br), if_pos rfl]
  exact hnv
/-- The ONES digit transition is a 10-cycle on decimal digits. -/
theorem onesNext_cycle_ten (d : Nat) (hd : d ≤ 0x9) : onesNext^[10] d = d := by
  interval_cases d <;> decide

/-- Iterating the ONES-place increment: after `n` presses the ONES slot
holds the `n`-fold `onesNext` of its original digit and everything else
is unchanged, with all the step invariants maintained. -/
theorem ones_iter (br : Nat) : ∀ (n : Nat) (arr : Nat → SevenSegDisp),
    (∀ i, i < 8 → (arr i).currBinSegCode = (arr i).nextBinSegCode) →
    thousandState arr br = 0 →
    (arr (onesIdx br)).hexDigit ≤ 0x9 →
    (∀ j, (((fun a => (incDispRow a 2 br).1)^[n] arr) j).hexDigit =
        (if j = onesIdx br then onesNext^[n] ((arr (onesIdx br)).hexDigit)
         else (arr j).hexDigit)) ∧
    (∀ j, (((fun a => (incDispRow a 2 br).1)^[n] arr) j).dp = (arr j).dp) ∧
    (∀ i, i < 8 →
        (((fun a => (incDispRow a 2 br).1)^[n] arr) i).currBinSegCode =
        (((fun a => (incDispRow a 2 br).1)^[n] arr) i).nextBinSegCode) ∧
    thousandState ((fun a => (incDispRow a 2 br).1)^[n] arr) br = 0 ∧
    (((fun a => (incDispRow a 2 br).1)^[n] arr) (onesIdx br)).hexDigit ≤ 0x9 := by
  intro n
  induction n with
  | zero =>
    intro arr h1 h2 h3
    refine ⟨?_, fun j => rfl, h1, h2, h3⟩
    intro j
    simp only [Function.iterate_zero, id_eq]
    by_cases hj : j = onesIdx br
    · rw [if_pos hj, hj]
    · rw [if_neg hj]
  | succ n ih =>
    intro arr h1 h2 h3
    obtain ⟨ih1, ih2, ih3, ih4, ih5⟩ := ih arr h1 h2 h3
    obtain ⟨s1, s2, s3, s4, s5⟩ :=
      ones_step ((fun a => (incDispRow a 2 br).1)^[n] arr) br ih3 ih4 ih5
    simp only [Function.iterate_succ_apply']
    refine ⟨?_, ?_, s3, s4, s5⟩
    · intro j
      rw [s1 j]
      by_cases hj : j = onesIdx br
      · rw [if_pos hj, if_pos hj, ih1 (onesIdx br), if_pos rfl]
      · rw [if_neg hj, if_neg hj, ih1 j, if_neg hj]
    · intro j
      rw [s2 j, ih2 j]
/-- C9: applying the ONES increment of `incDispRow` 10 times on either
row, starting from any decimal digit in the ONES slot of a consistent
row that is not in overflow mode, returns the ONES slot to its original
value and leaves the digits and decimal points of every other slot
unchanged. -/
theorem ones_ten_wraps_to_original (arr : Nat → SevenSegDisp) (br : Nat)
    (hcons : ∀ i, i < 8 → (arr i).currBinSegCode = (arr i).nextBinSegCode)
    (hts : thousandState arr br = 0)
    (hd : (arr (onesIdx br)).hexDigit ≤ 0x9) :
    (((fun a => (incDispRow a 2 br).1)^[10] arr) (onesIdx br)).hexDigit =
      (arr (onesIdx br)).hexDigit ∧
    (∀ j, j ≠ onesIdx br →
      (((fun a => (incDispRow a 2 br).1)^[10] arr) j).hexDigit =
        (arr j).hexDigit) ∧
    (∀ j, (((fun a => (incDispRow a 2 br).1)^[10] arr) j).dp = (arr j).dp) := by
  obtain ⟨h1, h2, -, -, -⟩ := ones_iter br 10 arr hcons hts hd
  refine ⟨?_, ?_, h2⟩
  · rw [h1 (onesIdx br), if_pos rfl, onesNext_cycle_ten _ hd]
  · intro j hj
    rw [h1 j, if_neg hj]

/-- C9 witness: on the top row "[][]7[]", ten ONES presses return the
ONES slot to 7 and leave the tenths digit and the tens decimal point
unchanged. -/
theorem ones_ten_wraps_to_original_witness :
    (((fun a => (incDispRow a 2 0).1)^[10] row7Top) (onesIdx 0)).hexDigit =
      (row7Top (onesIdx 0)).hexDigit ∧
    (((fun a => (incDispRow a 2 0).1)^[10] row7Top) 3).hexDigit =
      (row7Top 3).hexDigit ∧
    (((fun a => (incDispRow a 2 0).1)^[10] row7Top) 1).dp = (row7Top 1).dp := by
  have h := ones_ten_wraps_to_original row7Top 0 (by decide) (by decide)
    (by decide)
  exact ⟨h.1, h.2.1 3 (by decide), h.2.2 1⟩
/-- C2 counterexample: with the bottom row in overflow mode ("1 0 0 0"),
a TENTHS call of `incDispRow` performs a display-array access at index 8
(the pre-switch read of `displayArr[dispRowIndex]` with
`dispRowIndex = 3 + 4 + 1`), which is out of bounds for the 8-element
array, so not every access stays within indices 0..7 as claimed. -/
theorem inc_tenths_overflow_reads_index_eight :
    ¬ (∀ i ∈ incDispRowAccesses rowThousand 3 1, i < 8) := by decide

/-- C2 amended: for every valid digit position and either row selector,
every display-array access of `incDispRow` is at an index below 8,
except that when the digit position is TENTHS, the bottom row is
selected and the row is in overflow mode, the pre-switch read accesses
index 8 — one element past the end of the array (the value read there
does not influence the outcome, since the TENTHS overflow branch
overwrites `nextHexCode` unconditionally). -/
theorem inc_accesses_stay_in_bounds_except_tenths_overflow (arr : Nat → SevenSegDisp) (digitPos botRow : Nat)
    (hdp : digitPos ≤ 3) :
    ∀ i ∈ incDispRowAccesses arr digitPos botRow,
      i < 8 ∨ (i = 8 ∧ digitPos = 3 ∧ botRow ≠ 0 ∧
        thousandState arr botRow = 1) := by
  have script : ∀ (dp : Nat), dp ≤ 3 → dp ≠ 3 →
      ∀ i ∈ incDispRowAccesses arr dp botRow,
        i < 8 ∨ (i = 8 ∧ dp = 3 ∧ botRow ≠ 0 ∧
          thousandState arr botRow = 1) := by
    intro dp hle hne i hi
    left
    by_cases hbr : botRow = 0
    · subst hbr
      interval_cases dp <;>
        rcases thousandState_cases arr 0 with hts | hts <;>
          simp only [incDispRowAccesses, incSwitchAccesses, incSwitch,
            hts] at hi <;>
          norm_num at hi <;>
          (try split_ifs at hi) <;> (try simp at hi) <;> omega
    · interval_cases dp <;>
        rcases thousandState_cases arr botRow with hts | hts <;>
          simp only [incDispRowAccesses, incSwitchAccesses, incSwitch,
            hts, hbr] at hi <;>
          norm_num [hbr] at hi <;>
          (try split_ifs at hi) <;> (try simp at hi) <;> omega
  rcases Nat.lt_or_ge digitPos 3 with h3 | h3
  · exact script digitPos hdp (by omega)
  · have hdp3 : digitPos = 3 := by omega
    subst hdp3
    intro i hi
    by_cases hbr : botRow = 0
    · left
      subst hbr
      rcases thousandState_cases arr 0 with hts | hts <;>
        simp only [incDispRowAccesses, incSwitchAccesses, incSwitch,
          hts] at hi <;>
        norm_num at hi <;>
        (try split_ifs at hi) <;> (try simp at hi) <;> omega
    · rcases thousandState_cases arr botRow with hts | hts
      · left
        simp only [incDispRowAccesses, incSwitchAccesses, incSwitch,
          hts, hbr] at hi
        norm_num [hbr] at hi
        (try split_ifs at hi) <;> (try simp at hi) <;> omega
      · simp only [incDispRowAccesses, incSwitchAccesses, incSwitch,
          hts, hbr] at hi
        norm_num [hbr] at hi
        have hlt : i < 8 ∨ i = 8 := by
          (try split_ifs at hi) <;> (try simp at hi) <;> omega
        rcases hlt with h | h
        · exact Or.inl h
        · exact Or.inr ⟨h, rfl, hbr, hts⟩

/-- C2 amended witness: an ONES access on the non-overflow top row is in
bounds. -/
theorem inc_accesses_bound_witness :
    2 < 8 ∨ (2 = 8 ∧ (2:Nat) = 3 ∧ (0:Nat) ≠ 0 ∧
      thousandState rowThousand 0 = 1) :=
  inc_accesses_stay_in_bounds_except_tenths_overflow rowThousand 2 0
    (by norm_num) 2 (by decide)

end Gemini
